import Mathlib

/-!
Shallow embedding of the weather-alerts widget (`src/index.js`) and proofs
of the specification claims about it.

The source is a small client-side program: a validator for a two-letter
region code (`validateStateInput`), a fetcher that turns an HTTP response
into data or an error (`fetchWeatherAlerts`), DOM presenter operations
(`displayAlerts`, `displayError`, `clearError`, `clearInput`) and an
orchestrating click handler (`handleGetAlerts`).

The DOM is modelled as an explicit `World` record; every JavaScript
function becomes a total Lean function over `World`.  JavaScript exceptions
become `Except`; the one place where an exception can arise outside the
embedded functions (an exception thrown by the rendering step inside the
handler's `try` block) is modelled by an explicit `Option String`
parameter of the handler.  JavaScript string truthiness (`""` is falsy)
is modelled faithfully by `jsOrString`.
-/

namespace WeatherAlerts

/-- A JavaScript runtime value, as far as this program needs: the validator
returns the boolean `true`, while the spec speaks of returning a string. -/
inductive JsValue where
  | bool (b : Bool)
  | str (s : String)
deriving DecidableEq, Repr

/-- `String.prototype.toUpperCase` on a single character (ASCII range,
which is all the program's regex can accept). -/
def jsUpperChar (c : Char) : Char :=
  if 'a' ≤ c ∧ c ≤ 'z' then Char.ofNat (c.toNat - 32) else c

/-- `String.prototype.toUpperCase`. -/
def jsToUpper (s : String) : String :=
  String.mk (s.data.map jsUpperChar)

/-- `String.prototype.trim`: drop whitespace from both ends. -/
def jsTrim (s : String) : String :=
  String.mk (((s.data.dropWhile Char.isWhitespace).reverse.dropWhile
    Char.isWhitespace).reverse)

/-- `state.trim().toUpperCase()` — the normalisation used at
`src/index.js:120` and `src/index.js:156`. -/
def normalizeState (s : String) : String :=
  jsToUpper (jsTrim s)

/-- One character of the character class `[A-Z]`. -/
def isUpperAlpha (c : Char) : Bool :=
  decide ('A' ≤ c ∧ c ≤ 'Z')

/-- `/^[A-Z]{2}$/.test s`. -/
def regexTestAZ2 (s : String) : Bool :=
  s.length == 2 && s.data.all isUpperAlpha

/-- `validateStateInput` (`src/index.js:115-127`): throws the empty-input
message when the input is falsy or trims to the empty string, throws the
format message when the trimmed, uppercased input (`trimmedState` in the
source, which is exactly `normalizeState state`) is not two characters or
fails the regex, and otherwise returns the boolean `true`. -/
def validateStateInput (state : String) : Except String JsValue :=
  if state = "" ∨ jsTrim state = "" then
    Except.error "Please enter a state abbreviation"
  else if (normalizeState state).length ≠ 2 ∨ regexTestAZ2 (normalizeState state) = false then
    Except.error "State abbreviation must be exactly 2 letters"
  else
    Except.ok (JsValue.bool true)

deriving instance DecidableEq for Except

example : validateStateInput " ca " = Except.ok (JsValue.bool true) := by decide
example : validateStateInput "" = Except.error "Please enter a state abbreviation" := by decide
example : validateStateInput "   " = Except.error "Please enter a state abbreviation" := by decide
example : validateStateInput "c1" = Except.error "State abbreviation must be exactly 2 letters" := by decide
example : validateStateInput "cali" = Except.error "State abbreviation must be exactly 2 letters" := by decide
example : normalizeState " ca " = "CA" := by decide

/-! ## Data model: the parsed alert payload and HTTP responses -/

/-- The `properties` object of one alert; only `headline` is used. -/
structure AlertProperties where
  headline : Option String
deriving DecidableEq, Repr

/-- One entry of the `features` sequence; `properties` itself may be
absent or null (`alert.properties?.` in the source). -/
structure Alert where
  properties : Option AlertProperties
deriving DecidableEq, Repr

/-- The parsed JSON payload; only `title` and `features` are used. -/
structure AlertResponse where
  title : Option String
  features : Option (List Alert)
deriving DecidableEq, Repr

/-- An HTTP response as `fetchWeatherAlerts` observes it: status, status
text, and the body, already split into "parses as JSON" (`some`) or
"`response.json()` rejects" (`none`). -/
structure HttpResponse where
  status : Nat
  statusText : String
  body : Option AlertResponse
deriving DecidableEq, Repr

/-- `x || d` for a JavaScript string-or-absent value: the default is used
when the value is absent *or* is the empty string (falsy). -/
def jsOrString (o : Option String) (d : String) : String :=
  match o with
  | some s => if s = "" then d else s
  | none => d

def API_BASE_URL : String := "https://api.weather.gov"

/-- The URL requested for a given state (`src/index.js:15`). -/
def requestUrl (state : String) : String :=
  API_BASE_URL ++ "/alerts/active?area=" ++ state

/-- `fetchWeatherAlerts` (`src/index.js:13-28`), as a function of the HTTP
response it gets back: a non-ok status (`response.ok` is status 200-299)
throws `API Error: {status} {statusText}`; a body that is not valid JSON
makes `response.json()` reject; otherwise the parsed body is returned. -/
def fetchWeatherAlerts (resp : HttpResponse) : Except String AlertResponse :=
  if ¬ (200 ≤ resp.status ∧ resp.status ≤ 299) then
    Except.error ("API Error: " ++ toString resp.status ++ " " ++ resp.statusText)
  else
    match resp.body with
    | none => Except.error "Unexpected end of JSON input"
    | some data => Except.ok data

example :
    fetchWeatherAlerts { status := 500, statusText := "Internal Server Error", body := none }
      = Except.error "API Error: 500 Internal Server Error" := by decide

/-! ## The DOM model -/

/-- A rendered child of the alerts display: the summary paragraph or the
headline list. -/
inductive Node where
  | para (text : String)
  | list (items : List String)
deriving DecidableEq, Repr

/-- The error-message element: its text and whether the `hidden` class is
applied. -/
structure ErrorBox where
  text : String
  hidden : Bool
deriving DecidableEq, Repr

/-- The trigger button: disabled flag and label (`textContent`). -/
structure Button where
  disabled : Bool
  label : String
deriving DecidableEq, Repr

/-- The page elements the program addresses by id; `none` means the
element is missing from the document. For the input element, the stored
string is its current `value`. -/
structure Dom where
  alertsDisplay : Option (List Node)
  errorBox : Option ErrorBox
  stateInput : Option String
  fetchButton : Option Button
deriving DecidableEq, Repr

/-- The whole observable state: the DOM, the console log, and the list of
HTTP requests issued so far (by URL, in order). -/
structure World where
  dom : Dom
  consoleLog : List String
  httpRequests : List String
deriving DecidableEq, Repr

/-- `console.error` / `console.log`: append a line to the log. -/
def pushLog (w : World) (m : String) : World :=
  { w with consoleLog := w.consoleLog ++ [m] }

/-- Record that a `fetch` call was issued. -/
def recordRequest (w : World) (url : String) : World :=
  { w with httpRequests := w.httpRequests ++ [url] }

/-! ## Presenter operations -/

/-- `alert.properties?.headline || 'No headline available'`
(`src/index.js:61`). -/
def headlineOf (alert : Alert) : String :=
  jsOrString (alert.properties.bind AlertProperties.headline) "No headline available"

/-- `data.features ? data.features.length : 0` (`src/index.js:47`). -/
def alertCountOf (data : AlertResponse) : Nat :=
  match data.features with
  | some fs => fs.length
  | none => 0

/-- `displayAlerts` (`src/index.js:34-69`): if the display element is
missing, log a diagnostic and return; otherwise clear it, append the
summary paragraph, and append the headline list when `features` is
present and non-empty. -/
def displayAlerts (data : AlertResponse) (w : World) : World :=
  match w.dom.alertsDisplay with
  | none => pushLog w "Alerts display element not found"
  | some _ =>
    let title := jsOrString data.title "Current watches, warnings, and advisories"
    let summary := Node.para (title ++ ": " ++ toString (alertCountOf data))
    let children :=
      match data.features with
      | some fs => if 0 < fs.length then [summary, Node.list (fs.map headlineOf)] else [summary]
      | none => [summary]
    { w with dom := { w.dom with alertsDisplay := some children } }

/-- `displayError` (`src/index.js:75-85`): if the error element is
missing, log a diagnostic and return; otherwise set its text and remove
the `hidden` class. -/
def displayError (message : String) (w : World) : World :=
  match w.dom.errorBox with
  | none => pushLog w "Error message element not found"
  | some _ =>
    { w with dom := { w.dom with errorBox := some { text := message, hidden := false } } }

/-- `clearError` (`src/index.js:90-97`): if the error element exists,
empty it and add the `hidden` class; otherwise do nothing (note: no
diagnostic is logged). -/
def clearError (w : World) : World :=
  match w.dom.errorBox with
  | none => w
  | some _ =>
    { w with dom := { w.dom with errorBox := some { text := "", hidden := true } } }

/-- `clearInput` (`src/index.js:102-108`): if the input element exists,
empty its value; otherwise do nothing (note: no diagnostic is logged). -/
def clearInput (w : World) : World :=
  match w.dom.stateInput with
  | none => w
  | some _ => { w with dom := { w.dom with stateInput := some "" } }

/-! ## The orchestrating click handler -/

/-- `fetchButton.disabled = true; fetchButton.textContent = 'Loading...'`
guarded by `if (fetchButton)` (`src/index.js:147-150`). -/
def setBusy (w : World) : World :=
  match w.dom.fetchButton with
  | none => w
  | some _ =>
    { w with dom := { w.dom with fetchButton := some { disabled := true, label := "Loading..." } } }

/-- The `finally` block (`src/index.js:170-176`): re-enable the button and
set its label back to `Get Weather Alerts`, when the button exists. -/
def restoreButton (w : World) : World :=
  match w.dom.fetchButton with
  | none => w
  | some _ =>
    { w with dom := { w.dom with fetchButton := some { disabled := false, label := "Get Weather Alerts" } } }

/-- `handleGetAlerts` (`src/index.js:132-177`).

`fetchResp` gives the HTTP response the network returns for a normalised
state; `renderExn` models an exception thrown by the rendering step inside
the `try` block (`none`: rendering completes; `some m`: `displayAlerts`
throws an error whose message is `m`, which the `catch` block then shows).
The embedded `displayAlerts` itself is total, so `renderExn` is the
explicit account of the remaining way the `catch`/`finally` structure can
be exercised.

Faithful to the source: early return when the input element is missing;
`clearError`; enter the busy state; `try` validate, fetch, render, clear
the input; `catch` shows the error message; `finally` restores the
button. The `fetch` request is issued (recorded) before the response
status is inspected, as in `fetchWeatherAlerts`. -/
def handleGetAlerts (fetchResp : String → HttpResponse) (renderExn : Option String)
    (w : World) : World :=
  match w.dom.stateInput with
  | none => pushLog w "State input element not found"
  | some stateValue =>
    let w1 := clearError w
    let w2 := setBusy w1
    let w3 :=
      match validateStateInput stateValue with
      | Except.error msg => displayError msg w2
      | Except.ok _ =>
        let normalizedState := normalizeState stateValue
        let w2r := recordRequest w2 (requestUrl normalizedState)
        match fetchWeatherAlerts (fetchResp normalizedState) with
        | Except.error msg => displayError msg w2r
        | Except.ok data =>
          match renderExn with
          | some msg => displayError msg w2r
          | none => clearInput (displayAlerts data w2r)
    restoreButton w3

/-- `true` iff an `Except` computation succeeded. -/
def exceptOk {ε α : Type} : Except ε α → Bool
  | Except.ok _ => true
  | Except.error _ => false

/-! ## Concrete worlds and oracles used by witnesses and counterexamples -/

/-- A page with an (empty) alerts display and nothing else. -/
def sampleWorld : World :=
  { dom := { alertsDisplay := some [], errorBox := none,
             stateInput := none, fetchButton := none },
    consoleLog := [], httpRequests := [] }

/-- A page with none of the addressed elements. -/
def bareWorld : World :=
  { dom := { alertsDisplay := none, errorBox := none,
             stateInput := none, fetchButton := none },
    consoleLog := [], httpRequests := [] }

/-- A complete page whose input holds the invalid raw value `"1"`. -/
def pageWithInput1 : World :=
  { dom := { alertsDisplay := some [], errorBox := some { text := "", hidden := true },
             stateInput := some "1",
             fetchButton := some { disabled := false, label := "Get Weather Alerts" } },
    consoleLog := [], httpRequests := [] }

/-- A complete page whose input holds the valid raw value `" ca "`. -/
def pageWithInputCa : World :=
  { dom := { alertsDisplay := some [], errorBox := some { text := "", hidden := true },
             stateInput := some " ca ",
             fetchButton := some { disabled := false, label := "Get Weather Alerts" } },
    consoleLog := [], httpRequests := [] }

/-- A network that always answers 200 with an empty payload. -/
def constOkFetch : String → HttpResponse :=
  fun _ => { status := 200, statusText := "OK", body := some { title := none, features := none } }

/-! ## Helper lemmas on characters and strings -/

lemma isUpperAlpha_not_ws {c : Char} (h : isUpperAlpha c = true) :
    c.isWhitespace = false := by
  obtain ⟨h1, h2⟩ := of_decide_eq_true h
  cases hws : c.isWhitespace
  · rfl
  · exfalso
    have hcases : c = ' ' ∨ c = '\t' ∨ c = '\r' ∨ c = '\n' := by
      rw [Char.isWhitespace] at hws
      simpa [or_assoc] using hws
    rcases hcases with rfl | rfl | rfl | rfl <;> revert h1 <;> decide

lemma jsUpperChar_fixed {c : Char} (h : isUpperAlpha c = true) : jsUpperChar c = c := by
  obtain ⟨h1, h2⟩ := of_decide_eq_true h
  rw [jsUpperChar, if_neg]
  rintro ⟨ha, _⟩
  have hle : ('a' : Char) ≤ 'Z' := le_trans ha h2
  revert hle
  decide

lemma regexTestAZ2_elim {s : String} (h : regexTestAZ2 s = true) :
    ∃ a b, s.data = [a, b] ∧ isUpperAlpha a = true ∧ isUpperAlpha b = true := by
  rw [regexTestAZ2, Bool.and_eq_true] at h
  obtain ⟨hlen, hall⟩ := h
  have hlen' : s.data.length = 2 := by
    have h2 : s.length = 2 := by simpa using hlen
    exact h2
  obtain ⟨a, b, hab⟩ := List.length_eq_two.mp hlen'
  refine ⟨a, b, hab, ?_, ?_⟩
  · exact (List.all_eq_true.mp hall) a (by rw [hab]; exact List.mem_cons_self a _)
  · exact (List.all_eq_true.mp hall) b (by rw [hab]; exact List.mem_cons_of_mem a (List.mem_cons_self b _))

lemma jsTrim_fixed {s : String} (h : regexTestAZ2 s = true) : jsTrim s = s := by
  obtain ⟨a, b, hab, ha, hb⟩ := regexTestAZ2_elim h
  obtain ⟨l⟩ := s
  have hl : l = [a, b] := hab
  subst hl
  rw [jsTrim]
  simp [List.dropWhile_cons, isUpperAlpha_not_ws ha, isUpperAlpha_not_ws hb]

lemma jsToUpper_fixed {s : String} (h : regexTestAZ2 s = true) : jsToUpper s = s := by
  obtain ⟨a, b, hab, ha, hb⟩ := regexTestAZ2_elim h
  obtain ⟨l⟩ := s
  have hl : l = [a, b] := hab
  subst hl
  rw [jsToUpper]
  simp [jsUpperChar_fixed ha, jsUpperChar_fixed hb]

lemma normalizeState_fixed {s : String} (h : regexTestAZ2 s = true) :
    normalizeState s = s := by
  rw [normalizeState, jsTrim_fixed h, jsToUpper_fixed h]

lemma regexTestAZ2_length {s : String} (h : regexTestAZ2 s = true) :
    s.length = 2 := by
  obtain ⟨a, b, hab, _, _⟩ := regexTestAZ2_elim h
  simp [String.length, hab]

lemma regexTestAZ2_of_trim_empty {s : String} (h : jsTrim s = "") :
    regexTestAZ2 (normalizeState s) = false := by
  rw [normalizeState, h]
  decide

/-- The validator succeeds (with value `true`) exactly when the trimmed,
uppercased input matches `^[A-Z]{2}$`. -/
lemma validateStateInput_ok_iff (s : String) :
    validateStateInput s = Except.ok (JsValue.bool true) ↔
      regexTestAZ2 (normalizeState s) = true := by
  rw [validateStateInput]
  by_cases h1 : s = "" ∨ jsTrim s = ""
  · rw [if_pos h1]
    constructor
    · intro h; simp at h
    · intro h
      exfalso
      have htrim : jsTrim s = "" := by
        rcases h1 with rfl | htrim
        · decide
        · exact htrim
      rw [regexTestAZ2_of_trim_empty htrim] at h
      simp at h
  · rw [if_neg h1]
    by_cases h2 : (normalizeState s).length ≠ 2 ∨ regexTestAZ2 (normalizeState s) = false
    · rw [if_pos h2]
      constructor
      · intro h; simp at h
      · intro h
        exfalso
        rcases h2 with hlen | hfalse
        · exact hlen (regexTestAZ2_length h)
        · rw [hfalse] at h; simp at h
    · rw [if_neg h2]
      push_neg at h2
      exact ⟨fun _ => Bool.eq_true_of_not_eq_false h2.2, fun _ => rfl⟩

/-! ## Claim theorems: the validator (C1, C2, C9) -/

/-- C1, counterexample: the claim says `validateStateInput` returns the
trimmed, uppercased code — in particular the string `"CA"` for the raw
input `" ca "` — but the source (`src/index.js:126`, `return true`)
returns the boolean `true`, which is not the string `"CA"`. -/
theorem validateStateInput_ca_returns_true_not_CA :
    validateStateInput " ca " = Except.ok (JsValue.bool true) ∧
      (Except.ok (JsValue.bool true) : Except String JsValue) ≠
        Except.ok (JsValue.str "CA") := by decide

/-- C1, amended: for every raw input whose trimmed, uppercased form
matches `^[A-Z]{2}$`, `validateStateInput` succeeds (returning the boolean
`true`, not the code); the trimmed, uppercased code itself is produced by
the caller's normalisation (`src/index.js:156`), which maps `" ca "` to
`"CA"`. -/
theorem validateStateInput_succeeds_on_match (s : String)
    (h : regexTestAZ2 (normalizeState s) = true) :
    validateStateInput s = Except.ok (JsValue.bool true) ∧
      normalizeState " ca " = "CA" :=
  ⟨(validateStateInput_ok_iff s).mpr h, by decide⟩

theorem validateStateInput_succeeds_on_match_witness :
    validateStateInput " ca " = Except.ok (JsValue.bool true) ∧
      normalizeState " ca " = "CA" :=
  validateStateInput_succeeds_on_match " ca " (by decide)

/-- C2: `validateStateInput` throws the empty-input error exactly on
inputs whose trimmed form is empty, throws the wrong-format error when
the trimmed input is non-empty but the trimmed, uppercased input fails
`^[A-Z]{2}$`, and succeeds when the trimmed, uppercased input matches. -/
theorem validateStateInput_error_cases (s : String) :
    (jsTrim s = "" →
      validateStateInput s = Except.error "Please enter a state abbreviation") ∧
    (jsTrim s ≠ "" → regexTestAZ2 (normalizeState s) = false →
      validateStateInput s = Except.error "State abbreviation must be exactly 2 letters") ∧
    (regexTestAZ2 (normalizeState s) = true →
      validateStateInput s = Except.ok (JsValue.bool true)) := by
  refine ⟨?_, ?_, fun h => (validateStateInput_ok_iff s).mpr h⟩
  · intro h
    rw [validateStateInput, if_pos (Or.inr h)]
  · intro h1 h2
    rw [validateStateInput, if_neg, if_pos (Or.inr h2)]
    rintro (rfl | h)
    · exact h1 (by decide)
    · exact h1 h

theorem validateStateInput_error_cases_witness :
    validateStateInput "   " = Except.error "Please enter a state abbreviation" ∧
    validateStateInput "c1" = Except.error "State abbreviation must be exactly 2 letters" ∧
    validateStateInput " ca " = Except.ok (JsValue.bool true) :=
  ⟨(validateStateInput_error_cases "   ").1 (by decide),
   (validateStateInput_error_cases "c1").2.1 (by decide) (by decide),
   (validateStateInput_error_cases " ca ").2.2 (by decide)⟩

/-- C9, counterexample: the claim reads "applying validate to the value it
returned succeeds again and yields the same value", but the value the
source returns on success is the boolean `true` (`src/index.js:126`), not
the region-code string, so the value returned for `"NY"` is not the
string `"NY"` (nor any string that could be re-validated). -/
theorem validateStateInput_NY_not_string :
    validateStateInput "NY" = Except.ok (JsValue.bool true) ∧
      (Except.ok (JsValue.bool true) : Except String JsValue) ≠
        Except.ok (JsValue.str "NY") := by decide

/-- C9, amended: the normalisation the pipeline applies (trim then
uppercase) is idempotent on accepted inputs: if `validateStateInput`
succeeds on `s`, it also succeeds on `normalizeState s`, and normalising
again changes nothing. -/
theorem validateStateInput_normalize_idempotent (s : String)
    (h : validateStateInput s = Except.ok (JsValue.bool true)) :
    validateStateInput (normalizeState s) = Except.ok (JsValue.bool true) ∧
      normalizeState (normalizeState s) = normalizeState s := by
  have hreg : regexTestAZ2 (normalizeState s) = true := (validateStateInput_ok_iff s).mp h
  have hfix : normalizeState (normalizeState s) = normalizeState s :=
    normalizeState_fixed hreg
  refine ⟨(validateStateInput_ok_iff _).mpr ?_, hfix⟩
  rw [hfix]
  exact hreg

theorem validateStateInput_normalize_idempotent_witness :
    validateStateInput (normalizeState " ca ") = Except.ok (JsValue.bool true) ∧
      normalizeState (normalizeState " ca ") = normalizeState " ca " :=
  validateStateInput_normalize_idempotent " ca " (by decide)

/-! ## Claim theorems: the fetcher (C4) -/

/-- C4: `fetchWeatherAlerts` fails exactly when the status is non-2xx or
the body is not valid JSON; a non-2xx status yields the message
`API Error: {status} {statusText}`; a 2xx status with a valid JSON body
yields the parsed body. -/
theorem fetchWeatherAlerts_cases (resp : HttpResponse) :
    (exceptOk (fetchWeatherAlerts resp) = true ↔
      (200 ≤ resp.status ∧ resp.status ≤ 299) ∧ resp.body ≠ none) ∧
    (¬ (200 ≤ resp.status ∧ resp.status ≤ 299) →
      fetchWeatherAlerts resp =
        Except.error ("API Error: " ++ toString resp.status ++ " " ++ resp.statusText)) ∧
    (∀ d : AlertResponse, (200 ≤ resp.status ∧ resp.status ≤ 299) → resp.body = some d →
      fetchWeatherAlerts resp = Except.ok d) := by
  refine ⟨?_, ?_, ?_⟩
  · rw [fetchWeatherAlerts]
    by_cases hok : 200 ≤ resp.status ∧ resp.status ≤ 299
    · rw [if_neg (not_not_intro hok)]
      cases hb : resp.body <;> simp [exceptOk, hok, hb]
    · rw [if_pos hok]
      simp [exceptOk, hok]
  · intro hbad
    rw [fetchWeatherAlerts, if_pos hbad]
  · intro d hok hb
    rw [fetchWeatherAlerts, if_neg (not_not_intro hok), hb]

theorem fetchWeatherAlerts_cases_witness :
    fetchWeatherAlerts { status := 500, statusText := "Internal Server Error", body := none } =
      Except.error "API Error: 500 Internal Server Error" ∧
    fetchWeatherAlerts
        { status := 200, statusText := "OK", body := some { title := none, features := none } } =
      Except.ok { title := none, features := none } := by
  constructor
  · have h := (fetchWeatherAlerts_cases
      { status := 500, statusText := "Internal Server Error", body := none }).2.1 (by decide)
    rw [h]
    decide
  · exact (fetchWeatherAlerts_cases
      { status := 200, statusText := "OK", body := some { title := none, features := none } }).2.2
      { title := none, features := none } (by decide) rfl

/-! ## Claim theorems: the presenter (C3, C7, C10) -/

/-- C3, counterexample: the claim says the summary title is the
response's `title` field whenever it is present, defaulting only when
absent; but `data.title || default` (`src/index.js:46`) also defaults
when the title is present and empty, so for `title = ""` the summary is
`"Current watches, warnings, and advisories: 0"`, not `": 0"`. -/
theorem displayAlerts_empty_title_defaults :
    (displayAlerts { title := some "", features := none } sampleWorld).dom.alertsDisplay =
      some [Node.para "Current watches, warnings, and advisories: 0"] ∧
    (displayAlerts { title := some "", features := none } sampleWorld).dom.alertsDisplay ≠
      some [Node.para ": 0"] := by decide

/-- C3, amended: when the alerts display exists, `displayAlerts` replaces
its content with the summary paragraph `"{title}: {count}"` — where the
title defaults when the `title` field is absent *or empty* and the count
is the length of `features` (0 when absent) — followed by the headline
list exactly when the count is positive, one item per alert in response
order, each item being the alert's headline unless it is absent (or the
`properties` object is absent) *or empty*, in which case the placeholder
`"No headline available"` is used. -/
theorem displayAlerts_renders (data : AlertResponse) (w : World) (cs : List Node)
    (h : w.dom.alertsDisplay = some cs) :
    ((displayAlerts data w).dom.alertsDisplay =
      some (Node.para
        ((match data.title with
          | some t => if t = "" then "Current watches, warnings, and advisories" else t
          | none => "Current watches, warnings, and advisories") ++ ": " ++
          toString (alertCountOf data)) ::
        (if 0 < alertCountOf data then
          [Node.list ((data.features.getD []).map headlineOf)]
        else []))) ∧
    (∀ alert : Alert,
      headlineOf alert =
        match alert.properties with
        | none => "No headline available"
        | some p =>
          match p.headline with
          | none => "No headline available"
          | some hl => if hl = "" then "No headline available" else hl) := by
  constructor
  · simp only [displayAlerts, h]
    rcases data with ⟨title, features⟩
    cases features with
    | none => cases title <;> simp [jsOrString, alertCountOf]
    | some fs =>
      by_cases hfs : 0 < fs.length
      · cases title <;> simp [jsOrString, alertCountOf, hfs]
      · cases title <;> simp [jsOrString, alertCountOf, hfs]
  · intro alert
    rcases alert with ⟨props⟩
    cases props with
    | none => simp [headlineOf, jsOrString]
    | some p =>
      cases hp : p.headline with
      | none => simp [headlineOf, jsOrString, hp]
      | some hl => by_cases hhl : hl = "" <;> simp [headlineOf, jsOrString, hp, hhl]

theorem displayAlerts_renders_witness :
    (displayAlerts
      { title := some "T",
        features := some [ { properties := some { headline := some "H1" } },
                           { properties := some { headline := none } } ] }
      sampleWorld).dom.alertsDisplay =
      some [Node.para "T: 2", Node.list ["H1", "No headline available"]] := by
  have h := (displayAlerts_renders
    { title := some "T",
      features := some [ { properties := some { headline := some "H1" } },
                         { properties := some { headline := none } } ] }
    sampleWorld [] rfl).1
  rw [h]
  decide

/-- C7, counterexample: the claim says every presenter operation logs a
diagnostic when its target element is missing, but `clearError`
(`src/index.js:90-97`) silently returns without logging anything when the
error element is absent. -/
theorem clearError_missing_no_log :
    clearError bareWorld = bareWorld ∧ (clearError bareWorld).consoleLog = [] := by decide

/-- C7, amended: with a missing target element, `displayAlerts` and
`displayError` log a diagnostic and change nothing else, while
`clearError` and `clearInput` return with no effect at all (and no
diagnostic); being total functions of the page state, none of the four
operations can raise. -/
theorem presenter_missing_element_behaviour (w : World) (data : AlertResponse) (m : String) :
    (w.dom.alertsDisplay = none →
      displayAlerts data w = pushLog w "Alerts display element not found") ∧
    (w.dom.errorBox = none →
      displayError m w = pushLog w "Error message element not found") ∧
    (w.dom.errorBox = none → clearError w = w) ∧
    (w.dom.stateInput = none → clearInput w = w) := by
  refine ⟨?_, ?_, ?_, ?_⟩
  · intro h; simp [displayAlerts, h]
  · intro h; simp [displayError, h]
  · intro h; simp [clearError, h]
  · intro h; simp [clearInput, h]

theorem presenter_missing_element_behaviour_witness :
    displayAlerts { title := none, features := none } bareWorld =
      pushLog bareWorld "Alerts display element not found" ∧
    displayError "boom" bareWorld = pushLog bareWorld "Error message element not found" ∧
    clearError bareWorld = bareWorld ∧
    clearInput bareWorld = bareWorld :=
  ⟨(presenter_missing_element_behaviour bareWorld { title := none, features := none } "boom").1 rfl,
   (presenter_missing_element_behaviour bareWorld { title := none, features := none } "boom").2.1 rfl,
   (presenter_missing_element_behaviour bareWorld { title := none, features := none } "boom").2.2.1 rfl,
   (presenter_missing_element_behaviour bareWorld { title := none, features := none } "boom").2.2.2 rfl⟩

/-- C10: an alert whose `properties` object is entirely absent (or null)
does not make `displayAlerts` raise — the embedded function is total and
renders normally — and its list item is the placeholder
`"No headline available"`. -/
theorem displayAlerts_missing_properties (data : AlertResponse) (w : World)
    (cs : List Node) (fs : List Alert) (i : Nat) (alert : Alert)
    (hd : w.dom.alertsDisplay = some cs)
    (hf : data.features = some fs)
    (hi : fs.get? i = some alert)
    (hp : alert.properties = none) :
    (∃ t, (displayAlerts data w).dom.alertsDisplay =
        some [Node.para t, Node.list (fs.map headlineOf)]) ∧
      (fs.map headlineOf).get? i = some "No headline available" := by
  have hpos : 0 < fs.length := by
    rcases List.get?_eq_some.mp hi with ⟨hlt, _⟩
    exact Nat.lt_of_le_of_lt (Nat.zero_le i) hlt
  constructor
  · refine ⟨jsOrString data.title "Current watches, warnings, and advisories" ++ ": " ++
      toString (alertCountOf data), ?_⟩
    simp only [displayAlerts, hd, hf]
    simp [hpos]
  · rw [List.get?_map, hi]
    simp [headlineOf, hp, jsOrString]

/-! ## Frame lemmas: what each operation leaves untouched -/

lemma pushLog_dom (w : World) (m : String) : (pushLog w m).dom = w.dom := rfl

lemma pushLog_http (w : World) (m : String) :
    (pushLog w m).httpRequests = w.httpRequests := rfl

lemma recordRequest_dom (w : World) (u : String) : (recordRequest w u).dom = w.dom := rfl

lemma clearError_fetchButton (w : World) :
    (clearError w).dom.fetchButton = w.dom.fetchButton := by
  rw [clearError]; cases h : w.dom.errorBox <;> simp

lemma clearError_stateInput (w : World) :
    (clearError w).dom.stateInput = w.dom.stateInput := by
  rw [clearError]; cases h : w.dom.errorBox <;> simp

lemma clearError_http (w : World) :
    (clearError w).httpRequests = w.httpRequests := by
  rw [clearError]; cases h : w.dom.errorBox <;> simp

lemma clearError_errorBox_some {w : World} {eb : ErrorBox} (h : w.dom.errorBox = some eb) :
    (clearError w).dom.errorBox = some { text := "", hidden := true } := by
  rw [clearError, h]

lemma setBusy_errorBox (w : World) : (setBusy w).dom.errorBox = w.dom.errorBox := by
  rw [setBusy]; cases h : w.dom.fetchButton <;> simp

lemma setBusy_stateInput (w : World) : (setBusy w).dom.stateInput = w.dom.stateInput := by
  rw [setBusy]; cases h : w.dom.fetchButton <;> simp

lemma setBusy_http (w : World) : (setBusy w).httpRequests = w.httpRequests := by
  rw [setBusy]; cases h : w.dom.fetchButton <;> simp

lemma setBusy_fetchButton_some {w : World} {b : Button} (h : w.dom.fetchButton = some b) :
    (setBusy w).dom.fetchButton = some { disabled := true, label := "Loading..." } := by
  rw [setBusy, h]

lemma displayError_fetchButton (m : String) (w : World) :
    (displayError m w).dom.fetchButton = w.dom.fetchButton := by
  rw [displayError]; cases h : w.dom.errorBox <;> simp [pushLog]

lemma displayError_stateInput (m : String) (w : World) :
    (displayError m w).dom.stateInput = w.dom.stateInput := by
  rw [displayError]; cases h : w.dom.errorBox <;> simp [pushLog]

lemma displayError_http (m : String) (w : World) :
    (displayError m w).httpRequests = w.httpRequests := by
  rw [displayError]; cases h : w.dom.errorBox <;> simp [pushLog]

lemma displayError_errorBox_some {w : World} {eb : ErrorBox} (m : String)
    (h : w.dom.errorBox = some eb) :
    (displayError m w).dom.errorBox = some { text := m, hidden := false } := by
  rw [displayError, h]

lemma displayAlerts_fetchButton (data : AlertResponse) (w : World) :
    (displayAlerts data w).dom.fetchButton = w.dom.fetchButton := by
  rw [displayAlerts]; cases h : w.dom.alertsDisplay <;> simp [pushLog]

lemma displayAlerts_stateInput (data : AlertResponse) (w : World) :
    (displayAlerts data w).dom.stateInput = w.dom.stateInput := by
  rw [displayAlerts]; cases h : w.dom.alertsDisplay <;> simp [pushLog]

lemma clearInput_fetchButton (w : World) :
    (clearInput w).dom.fetchButton = w.dom.fetchButton := by
  rw [clearInput]; cases h : w.dom.stateInput <;> simp

lemma clearInput_stateInput_some {w : World} {v : String} (h : w.dom.stateInput = some v) :
    (clearInput w).dom.stateInput = some "" := by
  rw [clearInput, h]

lemma restoreButton_stateInput (w : World) :
    (restoreButton w).dom.stateInput = w.dom.stateInput := by
  rw [restoreButton]; cases h : w.dom.fetchButton <;> simp

lemma restoreButton_errorBox (w : World) :
    (restoreButton w).dom.errorBox = w.dom.errorBox := by
  rw [restoreButton]; cases h : w.dom.fetchButton <;> simp

lemma restoreButton_http (w : World) :
    (restoreButton w).httpRequests = w.httpRequests := by
  rw [restoreButton]; cases h : w.dom.fetchButton <;> simp

lemma restoreButton_of_present {w : World} (h : w.dom.fetchButton ≠ none) :
    (restoreButton w).dom.fetchButton =
      some { disabled := false, label := "Get Weather Alerts" } := by
  rw [restoreButton]
  cases hb : w.dom.fetchButton
  · exact absurd hb h
  · simp

/-! ## Claim theorems: the orchestrating handler (C5, C6, C8) -/

/-- C5: whenever the handler enters the busy state (the input element and
the trigger button both exist, so the button is disabled and relabelled
`Loading...`), every exit path of `handleGetAlerts` — success, validation
failure, fetch failure, or an exception raised by the rendering step —
leaves the button re-enabled with its original label
`Get Weather Alerts` restored. -/
theorem handleGetAlerts_restores_button (f : String → HttpResponse)
    (rExn : Option String) (w : World) (v : String) (b : Button)
    (hin : w.dom.stateInput = some v)
    (hbtn : w.dom.fetchButton = some b)
    (hlbl : b.label = "Get Weather Alerts") :
    (handleGetAlerts f rExn w).dom.fetchButton =
      some { disabled := false, label := b.label } := by
  rw [hlbl]
  simp only [handleGetAlerts, hin]
  have hbusy : (setBusy (clearError w)).dom.fetchButton =
      some { disabled := true, label := "Loading..." } := by
    apply setBusy_fetchButton_some
    rw [clearError_fetchButton]
    exact hbtn
  apply restoreButton_of_present
  rcases hval : validateStateInput v with msg | val
  · simp only [hval]
    rw [displayError_fetchButton, hbusy]
    simp
  · simp only [hval]
    rcases hfetch : fetchWeatherAlerts (f (normalizeState v)) with msg | data
    · simp only [hfetch]
      rw [displayError_fetchButton, recordRequest_dom, hbusy]
      simp
    · simp only [hfetch]
      cases rExn with
      | some msg =>
        simp only []
        rw [displayError_fetchButton, recordRequest_dom, hbusy]
        simp
      | none =>
        simp only []
        rw [clearInput_fetchButton, displayAlerts_fetchButton, recordRequest_dom, hbusy]
        simp

theorem handleGetAlerts_restores_button_witness :
    (handleGetAlerts constOkFetch none pageWithInputCa).dom.fetchButton =
      some { disabled := false, label := "Get Weather Alerts" } :=
  handleGetAlerts_restores_button constOkFetch none pageWithInputCa " ca "
    { disabled := false, label := "Get Weather Alerts" } rfl rfl rfl

/-- C6: when the raw input fails validation, `handleGetAlerts` issues no
HTTP request, and (when the error element exists) the validation error
message is shown via the error surface. -/
theorem handleGetAlerts_validation_failure (f : String → HttpResponse)
    (rExn : Option String) (w : World) (v m : String)
    (hin : w.dom.stateInput = some v)
    (hval : validateStateInput v = Except.error m) :
    (handleGetAlerts f rExn w).httpRequests = w.httpRequests ∧
    (∀ eb : ErrorBox, w.dom.errorBox = some eb →
      (handleGetAlerts f rExn w).dom.errorBox = some { text := m, hidden := false }) := by
  simp only [handleGetAlerts, hin, hval]
  constructor
  · rw [restoreButton_http, displayError_http, setBusy_http, clearError_http]
  · intro eb heb
    rw [restoreButton_errorBox]
    apply displayError_errorBox_some
    rw [setBusy_errorBox]
    exact clearError_errorBox_some heb

theorem handleGetAlerts_validation_failure_witness :
    (handleGetAlerts constOkFetch none pageWithInput1).httpRequests =
      pageWithInput1.httpRequests ∧
    (handleGetAlerts constOkFetch none pageWithInput1).dom.errorBox =
      some { text := "State abbreviation must be exactly 2 letters", hidden := false } := by
  have h := handleGetAlerts_validation_failure constOkFetch none pageWithInput1 "1"
    "State abbreviation must be exactly 2 letters" rfl (by decide)
  exact ⟨h.1, h.2 { text := "", hidden := true } rfl⟩

/-- C8: the input control's value ends up cleared exactly when
validation, the fetch and the rendering step all succeed; on every
failure path the value is left unchanged. -/
theorem handleGetAlerts_input_cleared_iff (f : String → HttpResponse)
    (rExn : Option String) (w : World) (v : String)
    (hin : w.dom.stateInput = some v) :
    (handleGetAlerts f rExn w).dom.stateInput =
      some (if exceptOk (validateStateInput v)
              && exceptOk (fetchWeatherAlerts (f (normalizeState v)))
              && rExn.isNone
            then "" else v) := by
  simp only [handleGetAlerts, hin]
  have hmid : (setBusy (clearError w)).dom.stateInput = some v := by
    rw [setBusy_stateInput, clearError_stateInput]
    exact hin
  rcases hval : validateStateInput v with msg | val
  · simp only [hval, exceptOk, Bool.false_and, if_neg Bool.false_ne_true]
    rw [restoreButton_stateInput, displayError_stateInput]
    exact hmid
  · rcases hfetch : fetchWeatherAlerts (f (normalizeState v)) with msg | data
    · simp only [hval, hfetch, exceptOk, Bool.true_and, Bool.false_and,
        if_neg Bool.false_ne_true]
      rw [restoreButton_stateInput, displayError_stateInput, recordRequest_dom]
      exact hmid
    · cases rExn with
      | some msg =>
        simp only [hval, hfetch, exceptOk, Option.isNone, Bool.true_and, Bool.and_false,
          if_neg Bool.false_ne_true]
        rw [restoreButton_stateInput, displayError_stateInput, recordRequest_dom]
        exact hmid
      | none =>
        simp only [hval, hfetch, exceptOk, Option.isNone, Bool.true_and, Bool.and_true,
          if_pos rfl]
        rw [restoreButton_stateInput]
        apply clearInput_stateInput_some
        rw [displayAlerts_stateInput, recordRequest_dom]
        exact hmid

theorem handleGetAlerts_input_cleared_iff_witness :
    (handleGetAlerts constOkFetch none pageWithInputCa).dom.stateInput = some "" := by
  have h := handleGetAlerts_input_cleared_iff constOkFetch none pageWithInputCa " ca " rfl
  rw [h]
  decide

theorem displayAlerts_missing_properties_witness :
    (∃ t, (displayAlerts { title := some "T", features := some [ { properties := none } ] }
        sampleWorld).dom.alertsDisplay =
      some [Node.para t, Node.list ([ { properties := none } ].map headlineOf)]) ∧
    ([ ({ properties := none } : Alert) ].map headlineOf).get? 0 =
      some "No headline available" :=
  displayAlerts_missing_properties
    { title := some "T", features := some [ { properties := none } ] }
    sampleWorld [] [ { properties := none } ] 0 { properties := none }
    rfl rfl rfl rfl

end WeatherAlerts
